import Mathlib

/-!
Shallow embedding of the RegimeEye backend (src/main.py, src/schemas.py).

The backend exposes four HTTP routes whose handlers are pure response
builders, except for one optional best-effort document-store write and one
diagnostic probe.  Python floats are modelled as rationals where the code
only manipulates literals (`regime_now`, `stress_test`) and as reals where
the code evaluates `math.sin` / `math.cos` / float powers (`backtest`).
Python dicts appear as association lists `List (String × _)` (the dict
literals in the code have pairwise-distinct keys), exceptions as
`Except String`, `None` as `Option.none`.  Wall-clock dates and environment
variables enter as explicit parameters.
-/

namespace RegimeEye

/-- Response model `RegimeNow` (main.py lines 22-28). -/
structure RegimeNow where
  timestamp : String
  regime : String
  probabilities : List (String × ℚ)
  conviction : ℤ
  weights : List (String × ℚ)
  benchmark_weights : List (String × ℚ)
deriving Repr, DecidableEq

/-- Response model `BacktestPoint` (main.py lines 31-35). -/
structure BacktestPoint where
  date : String
  taa : ℝ
  saa : ℝ
  sixty_forty : ℝ

/-- Response model `BacktestResponse` (main.py lines 38-40). -/
structure BacktestResponse where
  equity_curve : List BacktestPoint
  weights_over_time : List (List (String × ℝ))

/-- Request model `ScenarioRequest` (main.py lines 43-45): a name plus a
mapping of assumption name to numeric value. -/
structure ScenarioRequest where
  name : String
  assumptions : List (String × ℚ)

/-- The JSON object returned by `stress_test` (main.py line 115). -/
structure StressTestResponse where
  scenario_id : Option String
  conviction : ℤ
  weights : List (String × ℚ)
deriving Repr, DecidableEq

/-- Handler for `GET /api/regime-now` (main.py lines 53-69).  The wall-clock
date `date.today().isoformat()` is passed in as `today`. -/
def regime_now (today : String) : RegimeNow :=
  { timestamp := today
    regime := "Slowdown"
    probabilities :=
      [("Expansion", 0.22), ("Slowdown", 0.53), ("Contraction", 0.18), ("Recovery", 0.07)]
    conviction := 84
    weights := [("SPY", 0.35), ("IEF", 0.35), ("GLD", 0.15), ("DBC", 0.10), ("SHY", 0.05)]
    benchmark_weights := [("SPY", 0.60), ("IEF", 0.40)] }

/-- `shift` of `stress_test` (main.py line 111):
`sum(req.assumptions.values()) if req.assumptions else 0.0`. -/
def stress_shift (assumptions : List (String × ℚ)) : ℚ :=
  if assumptions = [] then 0 else (assumptions.map Prod.snd).sum

/-- Handler for `POST /api/stress-test` (main.py lines 102-115).  The external
collaborator `create_document(collection, document)` is passed in as a
function returning `Except` (an `.error` value is a raised exception); the
document `{name, assumptions}` is its second argument. -/
def stress_test
    (create_document : String → String × List (String × ℚ) → Except String String)
    (req : ScenarioRequest) : StressTestResponse :=
  let scenario_id : Option String :=
    match create_document "scenario" (req.name, req.assumptions) with
    | .ok i => some i
    | .error _ => none
  let shift : ℚ := stress_shift req.assumptions
  let conviction : ℤ := max 0 (min 100 (70 + 5 * (if shift < 0 then 1 else -1)))
  { scenario_id := scenario_id
    conviction := conviction
    weights := [("SPY", 0.30), ("IEF", 0.45), ("GLD", 0.15), ("DBC", 0.07), ("SHY", 0.03)] }

/-- `t = i / n` with `n = 240` (main.py line 86), as a real number. -/
noncomputable def backtest_t (i : ℕ) : ℝ := (i : ℝ) / 240

/-- `taa = 100 * (1 + 0.08) ** (t * 20) * (1 + 0.02 * math.sin(8 * t))`
(main.py line 87); the float power with float exponent is real `rpow`. -/
noncomputable def taa (i : ℕ) : ℝ :=
  100 * Real.rpow (1 + 0.08) (backtest_t i * 20) * (1 + 0.02 * Real.sin (8 * backtest_t i))

/-- `saa = 100 * (1 + 0.05) ** (t * 20)` (main.py line 88). -/
noncomputable def saa (i : ℕ) : ℝ :=
  100 * Real.rpow (1 + 0.05) (backtest_t i * 20)

/-- `sixty = 100 * (1 + 0.06) ** (t * 20)` (main.py line 89). -/
noncomputable def sixty (i : ℕ) : ℝ :=
  100 * Real.rpow (1 + 0.06) (backtest_t i * 20)

/-- The Python format `{(i%12)+1:02d}`: decimal, zero-padded to width 2. -/
def pad2 (m : ℕ) : String :=
  (if m < 10 then "0" else "") ++ toString m

/-- The date label `f"{2005 + i//12}-{(i%12)+1:02d}-01"` (main.py line 90). -/
def point_date (i : ℕ) : String :=
  toString (2005 + i / 12) ++ "-" ++ pad2 (i % 12 + 1) ++ "-01"

/-- `w_spy = 0.55 - 0.25 * math.sin(2 * math.pi * t)` (main.py line 92). -/
noncomputable def w_spy (i : ℕ) : ℝ :=
  0.55 - 0.25 * Real.sin (2 * Real.pi * backtest_t i)

/-- `w_ief = 0.35 + 0.20 * math.sin(2 * math.pi * t)` (main.py line 93). -/
noncomputable def w_ief (i : ℕ) : ℝ :=
  0.35 + 0.20 * Real.sin (2 * Real.pi * backtest_t i)

/-- `w_gld = 0.10 + 0.10 * math.sin(4 * math.pi * t)` (main.py line 94). -/
noncomputable def w_gld (i : ℕ) : ℝ :=
  0.10 + 0.10 * Real.sin (4 * Real.pi * backtest_t i)

/-- `w_dbc = max(0.0, 0.15 * math.cos(2 * math.pi * t))` (main.py line 95). -/
noncomputable def w_dbc (i : ℕ) : ℝ :=
  max 0 (0.15 * Real.cos (2 * Real.pi * backtest_t i))

/-- `w_shy = max(0.0, 1 - (w_spy + w_ief + w_gld + w_dbc))` (main.py line 96). -/
noncomputable def w_shy (i : ℕ) : ℝ :=
  max 0 (1 - (w_spy i + w_ief i + w_gld i + w_dbc i))

/-- The `BacktestPoint` appended at loop index `i` (main.py line 90). -/
noncomputable def backtest_point (i : ℕ) : BacktestPoint :=
  { date := point_date i, taa := taa i, saa := saa i, sixty_forty := sixty i }

/-- The weights dict appended at loop index `i` (main.py line 97). -/
noncomputable def backtest_weights (i : ℕ) : List (String × ℝ) :=
  [("SPY", w_spy i), ("IEF", w_ief i), ("GLD", w_gld i), ("DBC", w_dbc i), ("SHY", w_shy i)]

/-- Handler for `GET /api/backtest` (main.py lines 72-99).  Query parameters
`start`, `end`, `benchmark` and the wall-clock date `today` are explicit
arguments; `end` defaults to `today` when absent (line 77-78) but, like
`start` and `benchmark`, is never used by the response computation. -/
noncomputable def backtest (start : Option String) (endDate : Option String)
    (benchmark : String) (today : String) : BacktestResponse :=
  let _endResolved : String := endDate.getD today
  { equity_curve := (List.range 240).map backtest_point
    weights_over_time := (List.range 240).map backtest_weights }

/-- The module-level database handle `db` as `test_database` sees it: either
absent (`None`) or an object with an optional `name` attribute and a
`list_collection_names()` call that returns a list or raises (`.error` is a
raised exception carrying `str(e)`). -/
structure DbHandle where
  name : Option String
  list_collection_names : Except String (List String)

/-- The JSON object returned by `GET /test` (main.py lines 120-127); the
`database_url` / `database_name` fields are unconditionally overwritten with
strings before returning (lines 146-147). -/
structure TestDatabaseResponse where
  backend : String
  database : String
  database_url : String
  database_name : String
  connection_status : String
  collections : List String
deriving Repr, DecidableEq

/-- Python truthiness of `os.getenv(...)`: `None` (unset) and the empty
string are falsy. -/
def env_truthy : Option String → Bool
  | none => false
  | some s => !(s == "")

/-- `"✅ Set" if os.getenv(...) else "❌ Not Set"` (main.py lines 146-147). -/
def env_flag (v : Option String) : String :=
  if env_truthy v then "✅ Set" else "❌ Not Set"

/-- First `n` characters of a string, Python `s[:n]` on codepoints. -/
def str_take (s : String) (n : ℕ) : String :=
  String.mk (s.data.take n)

/-- Handler for `GET /test` (main.py lines 118-149).  The environment
variables `DATABASE_URL` / `DATABASE_NAME` are the `url_env` / `name_env`
arguments.  In the model none of `db is not None`, `hasattr`, or attribute
access can raise, so the outer `except` (lines 143-144) is unreachable; the
intermediate `database_url` / `database_name` assignments on lines 132-133
are dropped because lines 146-147 unconditionally overwrite them, and
`db.name` therefore never reaches the response. -/
def test_database (db : Option DbHandle) (url_env name_env : Option String) :
    TestDatabaseResponse :=
  let database_status : String :=
    match db with
    | none => "⚠️  Available but not initialized"
    | some d =>
      match d.list_collection_names with
      | .ok _ => "✅ Connected & Working"
      | .error e => "⚠️  Connected but Error: " ++ str_take e 50
  let collections : List String :=
    match db with
    | none => []
    | some d =>
      match d.list_collection_names with
      | .ok cols => cols.take 10
      | .error _ => []
  let connection_status : String :=
    match db with
    | none => "Not Connected"
    | some _ => "Connected"
  { backend := "✅ Running"
    database := database_status
    database_url := env_flag url_env
    database_name := env_flag name_env
    connection_status := connection_status
    collections := collections }

/-- C1: for every POST /api/stress-test request, the returned conviction is
the clamp to [0,100] of `70 + 5*(1 if shift<0 else -1)` where `shift` is the
sum of all assumption values (0 for an empty mapping); concretely the
assumptions `a ↦ -1`, `a ↦ 1` and the empty mapping yield convictions
75, 65 and 65 respectively. -/
theorem stress_test_conviction_formula
    (cd : String → String × List (String × ℚ) → Except String String)
    (nm : String) (a : List (String × ℚ)) :
    (stress_test cd ⟨nm, a⟩).conviction
      = max 0 (min 100 (70 + 5 * (if (a.map Prod.snd).sum < 0 then 1 else -1)))
    ∧ (stress_test cd ⟨nm, [("a", -1)]⟩).conviction = 75
    ∧ (stress_test cd ⟨nm, [("a", 1)]⟩).conviction = 65
    ∧ (stress_test cd ⟨nm, []⟩).conviction = 65 := by
  refine ⟨?_, ?_, ?_, ?_⟩
  · by_cases h : a = []
    · subst h; simp [stress_test, stress_shift]
    · simp [stress_test, stress_shift, h]
  · norm_num [stress_test, stress_shift]
  · norm_num [stress_test, stress_shift]
  · norm_num [stress_test, stress_shift]

/-- C9: the stress-test conviction is 75 exactly when the assumption shift is
negative and 65 otherwise; it equals the unclamped `70 ± 5`, so the clamp to
[0,100] never changes it, and it lies strictly between 0 and 100. -/
theorem stress_test_conviction_range
    (cd : String → String × List (String × ℚ) → Except String String)
    (req : ScenarioRequest) :
    ((stress_test cd req).conviction
        = if stress_shift req.assumptions < 0 then 75 else 65)
    ∧ (stress_test cd req).conviction
        = 70 + 5 * (if stress_shift req.assumptions < 0 then 1 else -1)
    ∧ 0 < (stress_test cd req).conviction
    ∧ (stress_test cd req).conviction < 100 := by
  by_cases h : stress_shift req.assumptions < 0 <;>
    refine ⟨?_, ?_, ?_, ?_⟩ <;> simp [stress_test, h]

/-- C6: if the persistence call raises, the stress-test handler still
produces a response with `scenario_id = none` and with the same conviction
and weights as any run in which persistence succeeds. -/
theorem stress_test_persistence_failure
    (cd cdok : String → String × List (String × ℚ) → Except String String)
    (req : ScenarioRequest) (e i : String)
    (h : cd "scenario" (req.name, req.assumptions) = .error e)
    (hok : cdok "scenario" (req.name, req.assumptions) = .ok i) :
    (stress_test cd req).scenario_id = none
    ∧ (stress_test cd req).conviction = (stress_test cdok req).conviction
    ∧ (stress_test cd req).weights = (stress_test cdok req).weights := by
  refine ⟨?_, rfl, rfl⟩
  simp [stress_test, h]

theorem stress_test_persistence_failure_witness :
    (stress_test (fun _ _ => .error "connection refused")
        ⟨"rates", [("us10y", 6)]⟩).scenario_id = none
    ∧ (stress_test (fun _ _ => .error "connection refused")
          ⟨"rates", [("us10y", 6)]⟩).conviction
        = (stress_test (fun _ _ => .ok "abc123")
          ⟨"rates", [("us10y", 6)]⟩).conviction
    ∧ (stress_test (fun _ _ => .error "connection refused")
          ⟨"rates", [("us10y", 6)]⟩).weights
        = (stress_test (fun _ _ => .ok "abc123")
          ⟨"rates", [("us10y", 6)]⟩).weights :=
  stress_test_persistence_failure _ _ _ "connection refused" "abc123" rfl rfl

/-- C7: the stress-test response's weights are the fixed mapping
SPY 0.30, IEF 0.45, GLD 0.15, DBC 0.07, SHY 0.03, whatever the request and
whatever the persistence collaborator does. -/
theorem stress_test_weights_constant
    (cd : String → String × List (String × ℚ) → Except String String)
    (req : ScenarioRequest) :
    (stress_test cd req).weights
      = [("SPY", 0.30), ("IEF", 0.45), ("GLD", 0.15), ("DBC", 0.07), ("SHY", 0.03)] := rfl

/-- C4: the regime-now response has exactly the 4 regime keys, probabilities
summing to 1 within 1e-9 (in fact exactly), conviction 84, and weights and
benchmark weights each summing to 1. -/
theorem regime_now_invariants (today : String) :
    (regime_now today).probabilities.map Prod.fst
        = ["Expansion", "Slowdown", "Contraction", "Recovery"]
    ∧ (regime_now today).probabilities.length = 4
    ∧ |((regime_now today).probabilities.map Prod.snd).sum - 1| ≤ 1 / 1000000000
    ∧ (regime_now today).conviction = 84
    ∧ ((regime_now today).weights.map Prod.snd).sum = 1
    ∧ ((regime_now today).benchmark_weights.map Prod.snd).sum = 1 := by
  refine ⟨rfl, rfl, ?_, rfl, ?_, ?_⟩ <;> norm_num [regime_now]

/-- C8: with no database handle and neither environment variable set, GET
/test still returns (the embedding is a total function) and reports both
`database_url` and `database_name` as "❌ Not Set". -/
theorem test_database_unconfigured :
    (test_database none none none).database_url = "❌ Not Set"
    ∧ (test_database none none none).database_name = "❌ Not Set" := ⟨rfl, rfl⟩

/-- C2: the backtest response is independent of the `start`, `end` and
`benchmark` query parameters (and of the wall-clock date): any two calls
return identical responses. -/
theorem backtest_independent_of_inputs (s1 e1 : Option String) (b1 t1 : String)
    (s2 e2 : Option String) (b2 t2 : String) :
    backtest s1 e1 b1 t1 = backtest s2 e2 b2 t2 := rfl

/-- C5: the backtest response has exactly 240 equity-curve points and 240
weight mappings (of equal length); point 0 is dated "2005-01-01", point 239
is dated "2024-12-01", every point `i` is labelled year `2005 + i / 12`,
zero-padded month `i % 12 + 1`, day 01; and the taa, saa and sixty_forty
values at index 0 all equal 100. -/
theorem backtest_shape (s e : Option String) (b t : String) :
    (backtest s e b t).equity_curve.length = 240
    ∧ (backtest s e b t).weights_over_time.length = 240
    ∧ (backtest s e b t).equity_curve.length = (backtest s e b t).weights_over_time.length
    ∧ (backtest s e b t).equity_curve[0]? = some (backtest_point 0)
    ∧ (backtest s e b t).equity_curve[239]? = some (backtest_point 239)
    ∧ (backtest_point 0).date = "2005-01-01"
    ∧ (backtest_point 239).date = "2024-12-01"
    ∧ (∀ i : ℕ, (backtest_point i).date
        = toString (2005 + i / 12) ++ "-" ++ pad2 (i % 12 + 1) ++ "-01")
    ∧ (backtest_point 0).taa = 100
    ∧ (backtest_point 0).saa = 100
    ∧ (backtest_point 0).sixty_forty = 100 := by
  refine ⟨?_, ?_, ?_, ?_, ?_, rfl, rfl, fun i => rfl, ?_, ?_, ?_⟩
  · simp [backtest]
  · simp [backtest]
  · simp [backtest]
  · simp [backtest]
  · simp [backtest]
  · simp [backtest_point, taa, backtest_t]
  · simp [backtest_point, saa, backtest_t]
  · simp [backtest_point, sixty, backtest_t]

/-- C10: every per-point weight mapping in the backtest has all five values
nonnegative, yet the weights do not always sum to 1: at index 0 they are
SPY 0.55, IEF 0.35, GLD 0.10, DBC 0.15, SHY 0 and sum to 1.15 > 1. -/
theorem backtest_weights_nonneg_but_sum_exceeds_one :
    (∀ i : ℕ, ∀ p ∈ backtest_weights i, 0 ≤ p.2)
    ∧ w_spy 0 = 0.55 ∧ w_ief 0 = 0.35 ∧ w_gld 0 = 0.10 ∧ w_dbc 0 = 0.15 ∧ w_shy 0 = 0
    ∧ 1 < ((backtest_weights 0).map Prod.snd).sum := by
  have h1 : w_spy 0 = 0.55 := by simp [w_spy, backtest_t]
  have h2 : w_ief 0 = 0.35 := by simp [w_ief, backtest_t]
  have h3 : w_gld 0 = 0.10 := by simp [w_gld, backtest_t]
  have h4 : w_dbc 0 = 0.15 := by simp [w_dbc, backtest_t]; norm_num
  have h5 : w_shy 0 = 0 := by
    rw [w_shy, h1, h2, h3, h4, max_eq_left (by norm_num)]
  refine ⟨?_, h1, h2, h3, h4, h5, ?_⟩
  · intro i p hp
    simp only [backtest_weights, List.mem_cons, List.not_mem_nil, or_false] at hp
    rcases hp with h | h | h | h | h <;> rw [h]
    · have hs := Real.sin_le_one (2 * Real.pi * backtest_t i)
      simp only [w_spy]; nlinarith
    · have hs := Real.neg_one_le_sin (2 * Real.pi * backtest_t i)
      simp only [w_ief]; nlinarith
    · have hs := Real.neg_one_le_sin (4 * Real.pi * backtest_t i)
      simp only [w_gld]; nlinarith
    · exact le_max_left 0 _
    · exact le_max_left 0 _
  · simp only [backtest_weights, List.map_cons, List.map_nil, List.sum_cons,
      List.sum_nil, h1, h2, h3, h4, h5]
    norm_num

theorem backtest_weights_nonneg_witness :
    0 ≤ (("SPY", w_spy 0) : String × ℝ).2 :=
  backtest_weights_nonneg_but_sum_exceeds_one.1 0 ("SPY", w_spy 0)
    (by simp [backtest_weights])

/-- A concrete 60-character exception message. -/
def long_error_message : String :=
  "aaaaaaaaaaaaaaaaaaaaaaaaaaaaaaaaaaaaaaaaaaaaaaaaaaaaaaaaaaaa"

/-- C3 counterexample: with a 60-character exception message from
`list_collection_names`, the `database` field of the GET /test response is 75
characters long (25-character prefix plus 50 kept characters), so the claim
that the field holds a string of at most 50 characters is false. -/
theorem test_database_error_over_50_chars :
    ¬ ((test_database (some ⟨none, .error long_error_message⟩) none none).database.length
        ≤ 50) := by
  decide

/-- C3 amended: every exception raised by `list_collection_names` is caught
(the embedding is total) and rendered in the `database` field as the fixed
prefix "⚠️  Connected but Error: " followed by the exception message
truncated to its first 50 characters, so the field is at most 75 characters
long. -/
theorem test_database_error_rendering (nm : Option String) (e : String)
    (u v : Option String) :
    (test_database (some ⟨nm, .error e⟩) u v).database
      = "⚠️  Connected but Error: " ++ str_take e 50
    ∧ (test_database (some ⟨nm, .error e⟩) u v).database.length ≤ 75 := by
  refine ⟨rfl, ?_⟩
  show ("⚠️  Connected but Error: " ++ str_take e 50).length ≤ 75
  rw [String.length_append]
  have h : (str_take e 50).length ≤ 50 := by
    show (e.data.take 50).length ≤ 50
    simp [List.length_take]
  have hp : ("⚠️  Connected but Error: " : String).length = 25 := by decide
  omega

end RegimeEye
